import Mathlib

/-!
Verification of the RiskIQ-AI risk-assessment backend.

Shallow embedding of the core logic of `src/backend/api.py` and
`src/backend/rag_pipeline/store.py`:

* the risk-category catalogue and `build_risk_table` scoring;
* `generate_dynamic_questions`;
* the retrieval-query construction and context assembly of `retrieve_rag_context`;
* the prompt-budget assembly of `generate_llm_advice_async`;
* the JSON-extraction / parsing / default-substitution logic of
  `generate_llm_advice_async`;
* the self-healing vector-store load of `load_existing_embeddings`.

Python strings are modelled as Lean `String` (a list of unicode scalar
characters; Python `len` agrees with `String.length` on all the texts the
program manipulates).  Python ints are `Int`/`Nat`.  Python float arithmetic
(the score weights and the percentage split of the prompt budget) is modelled
exactly over `ℚ`; every constant involved is a short decimal and every claim
proved about them is robust to the (tiny) float rounding the real program
performs.  External capabilities (the similarity search of the vector store, the
language model, the document chunker) are parameters of the embedded
functions, exactly at the call boundary where `api.py` invokes them.
-/

namespace RiskAI

/-- Python `s[:n]` for a non-negative bound `n`: the first `n` characters. -/
def strTake (s : String) (n : Nat) : String :=
  String.mk (s.data.take n)

/-- Python `s[:k]` for an arbitrary int bound `k` (a negative bound keeps all
but the last `|k|` characters, clamped at the empty string). -/
def pySlice (s : String) (k : Int) : String :=
  if k < 0 then strTake s (s.data.length - k.natAbs) else strTake s k.toNat

/-- Python `int(q)` on a rational: truncation toward zero. -/
def pyTrunc (q : ℚ) : Int :=
  if 0 ≤ q then ⌊q⌋ else -⌊-q⌋

/-- `needle` occurs at the head of `hay`. -/
def listStartsWith : List Char → List Char → Bool
  | [], _ => true
  | _ :: _, [] => false
  | a :: as, b :: bs => a == b && listStartsWith as bs

/-- `needle` occurs somewhere inside `hay` (Python `needle in hay`). -/
def listContainsSub (needle : List Char) : List Char → Bool
  | [] => needle.isEmpty
  | c :: cs => listStartsWith needle (c :: cs) || listContainsSub needle cs

/-- Python `needle in hay` on strings. -/
def strContainsSub (hay needle : String) : Bool :=
  listContainsSub needle.data hay.data

/-- ASCII lower-casing of one character. -/
def lowerCh (c : Char) : Char :=
  if 'A' ≤ c && c ≤ 'Z' then Char.ofNat (c.toNat + 32) else c

/-- Python `s.lower()` (all texts the program lower-cases are ASCII). -/
def strLower (s : String) : String :=
  String.mk (s.data.map lowerCh)

/-- Python `dict.get(k, default)` over an insertion-ordered association list
with distinct keys (the shape `submit_answers` builds its `answers_dict` in). -/
def dictGetD (d : List (String × String)) (k : String) (dflt : String) : String :=
  match d.find? (fun p => p.1 == k) with
  | some p => p.2
  | none => dflt

theorem strMk_length (l : List Char) : (String.mk l).length = l.length := rfl

theorem strTake_length (s : String) (n : Nat) :
    (strTake s n).length = min n s.length := by
  show (s.data.take n).length = min n s.length
  exact List.length_take n s.data

theorem strLen_append (s t : String) : (s ++ t).length = s.length + t.length :=
  String.length_append s t

theorem pySlice_length_le (s : String) (k : Int) (hk : 0 ≤ k) :
    ((pySlice s k).length : Int) ≤ k := by
  simp only [pySlice, if_neg (not_lt.mpr hk), strTake_length]
  have h1 : min k.toNat s.data.length ≤ k.toNat := Nat.min_le_left _ _
  have h2 : ((min k.toNat s.data.length : Nat) : Int) ≤ (k.toNat : Int) := by
    exact_mod_cast h1
  calc ((min k.toNat s.data.length : Nat) : Int) ≤ (k.toNat : Int) := h2
    _ = k := Int.toNat_of_nonneg hk

/-- `CompanyProfile` (api.py, class CompanyProfile). The optional `name` plays
no role in any embedded computation and is omitted. -/
structure CompanyProfile where
  industry : String
  size : String
  tech_adoption : String
  security_controls : String
  risk_posture : String
  emerging_technologies : List String

/-- `RiskQuestion` (api.py, class RiskQuestion). -/
structure RiskQuestion where
  id : String
  question_text : String
  category_name : String
  helper_text : String
  scoring_focus : String

/-- `RiskTableRow` (api.py, class RiskTableRow).  `weight` is a Python float
holding a two-decimal constant; modelled exactly in `ℚ`. -/
structure RiskTableRow where
  id : String
  category : String
  definition : String
  scoring_focus : String
  score : Int
  max_score : Int
  weight : ℚ
  explanation : String

/-- One entry of `RISK_CATEGORIES_DEFINITION` (api.py lines 136-159). -/
structure RiskCategoryDef where
  id : String
  category : String
  definition : String
  scoring_focus : String
  weight : ℚ
  max_score : Int

/-- `RISK_CATEGORIES_DEFINITION` (api.py lines 136-159), transcribed verbatim
(float weight literals as exact rationals). -/
def RISK_CATEGORIES_DEFINITION : List RiskCategoryDef := [
  ⟨"business_strategy", "Business Strategy Alignment", "How well emerging technology initiatives align with overall business goals and strategy.", "Strategic alignment, ROI measurement, business case development", 6/100, 10⟩,
  ⟨"market_position", "Market Position & Competitive Advantage", "How emerging technologies affect market position and create competitive advantages.", "Market differentiation, first-mover advantage, competitive analysis", 5/100, 10⟩,
  ⟨"financial_impact", "Financial Impact & Investment", "Financial considerations for emerging technology adoption including budgeting and ROI.", "Budget allocation, cost management, ROI forecasting", 5/100, 10⟩,
  ⟨"regulatory_compliance", "Regulatory Compliance", "Adherence to relevant regulations and standards for emerging technologies.", "Compliance frameworks, regulatory monitoring, audit readiness", 5/100, 10⟩,
  ⟨"organizational_readiness", "Organizational Readiness", "Company\x27s cultural and structural readiness to adopt emerging technologies.", "Change management, skills assessment, leadership buy-in", 5/100, 10⟩,
  ⟨"asset_visibility", "Asset Visibility", "Degree to which the organization knows and inventories its IT assets (hardware, software, cloud resources).", "Asset registry, CMDB, shadow IT detection", 4/100, 10⟩,
  ⟨"data_sensitivity", "Data Sensitivity & Classification", "Processes for labeling, managing, and securing data based on confidentiality, integrity, and availability (CIA).", "Classification tiers, encryption, data flow maps", 5/100, 10⟩,
  ⟨"access_management", "Access Management", "Enforcement of least privilege, role-based access controls (RBAC), SSO, MFA, and joiner/mover/leaver processes.", "IAM maturity, MFA adoption, AD hygiene", 5/100, 10⟩,
  ⟨"network_security", "Network Security Posture", "Strength of network segmentation, firewall rules, intrusion detection, and Zero Trust principles.", "Segmentation, micro-perimeters, SDN, detection systems", 4/100, 10⟩,
  ⟨"cloud_security", "Cloud Security", "Protection of cloud workloads and infrastructure (IaaS, PaaS, SaaS) using shared responsibility models.", "CSPM usage, workload isolation, key management", 5/100, 10⟩,
  ⟨"third_party_risk", "Third-Party Risk", "Risk from vendors, partners, and supply chain entities with access to your systems or data.", "Vendor assessments, contract clauses, breach awareness", 5/100, 10⟩,
  ⟨"incident_response", "Incident Detection & Response", "Ability to detect, triage, respond to, and recover from cyber incidents effectively.", "SIEM/SOAR, playbooks, RTO/RPO", 5/100, 10⟩,
  ⟨"security_awareness", "Security Awareness Training", "Ongoing efforts to educate employees on phishing, password hygiene, and safe digital behavior.", "Frequency, phishing test scores, LMS coverage", 4/100, 10⟩,
  ⟨"grc", "Governance, Risk & Compliance (GRC)", "Integration of policy, risk registers, regulatory mapping, and control audits.", "GRC tooling, policy gaps, audit frequency", 5/100, 10⟩,
  ⟨"secure_sdlc", "Secure Development (SDLC)", "Degree to which security is integrated into software development lifecycle.", "SAST, DAST, threat modeling, dev training", 4/100, 10⟩,
  ⟨"business_continuity", "Business Continuity & Resilience", "Organization\x27s readiness to maintain operations during cyber attacks or outages.", "BCP/DR plans, failover tests, resilience strategy", 4/100, 10⟩,
  ⟨"security_monitoring", "Security Monitoring & Logging", "Centralized logging, alerting thresholds, and actionable telemetry.", "Log aggregation, SIEM use, anomaly detection", 4/100, 10⟩,
  ⟨"risk_quantification", "Risk Quantification & Reporting", "Methods used to quantify and communicate cyber risk to stakeholders.", "FAIR use, dashboards, board reporting", 3/100, 10⟩,
  ⟨"app_security", "Application Security", "Security practices and tooling applied to web, mobile, and internal applications.", "AppSec tools, bug bounty, static/dynamic scanning", 4/100, 10⟩,
  ⟨"emerging_tech_adoption", "Emerging Technology Adoption", "Preparedness to adopt and govern new technologies (AI, quantum, blockchain) securely.", "Risk vetting, PoC governance, PQC, AI use policy", 3/100, 10⟩,
  ⟨"innovation_culture", "Innovation Culture", "Company\x27s ability to foster innovation and experimentation with emerging technologies.", "Innovation programs, idea management, experimentation frameworks", 4/100, 10⟩,
  ⟨"talent_management", "Talent Management", "Strategies for attracting, developing, and retaining talent for emerging technology initiatives.", "Skills development, recruitment strategy, retention programs", 5/100, 10⟩]

/-! ## `generate_dynamic_questions` (api.py lines 222-275) -/

/-- The `prioritized_categories` list built at the head of
`generate_dynamic_questions`. -/
def prioritizedCategories (profile : CompanyProfile) : List String :=
  ["business_strategy"]
    ++ (if ["startup", "small", "sme", "medium"].contains (strLower profile.size) then
          ["financial_impact", "talent_management"] else [])
    ++ (if ["large", "enterprise", "corporation"].contains (strLower profile.size) then
          ["market_position", "regulatory_compliance"] else [])
    ++ (if ["early adopter", "innovator", "leader"].contains (strLower profile.tech_adoption) then
          ["innovation_culture", "emerging_tech_adoption"] else [])
    ++ (if ["finance", "banking", "healthcare", "government", "insurance"].contains
            (strLower profile.industry) then
          ["data_sensitivity", "regulatory_compliance", "third_party_risk"] else [])

/-- The final `question_text` for one catalogue entry: the default f-string,
overridden for `cloud_security` (when no emerging technology mentions cloud)
and for `emerging_tech_adoption` (api.py lines 251, 259-264). -/
def questionTextFor (profile : CompanyProfile) (cd : RiskCategoryDef) : String :=
  if cd.id == "emerging_tech_adoption" then
    "Regarding " ++ strLower cd.category
      ++ ", how do you evaluate and govern the adoption of new technologies like "
      ++ String.intercalate ", " profile.emerging_technologies ++ " in your organization?"
  else if cd.id == "cloud_security"
      && !profile.emerging_technologies.contains "cloud"
      && !profile.emerging_technologies.any (fun tech => strContainsSub (strLower tech) "cloud") then
    "Regarding " ++ strLower cd.category ++ " (" ++ cd.definition
      ++ "), even if not a primary focus, what are your considerations or practices for "
      ++ strLower cd.scoring_focus ++ " when evaluating or using any cloud services?"
  else
    "Regarding " ++ strLower cd.category ++ " (" ++ cd.definition
      ++ "), how would you describe your current practices related to "
      ++ strLower cd.scoring_focus ++ "?"

/-- The `helper_text` for one catalogue entry (api.py lines 254-256). -/
def helperTextFor (profile : CompanyProfile) (cd : RiskCategoryDef) : String :=
  let base := "Consider: " ++ cd.definition ++ ". Focus on aspects like: "
    ++ cd.scoring_focus ++ "."
  if (prioritizedCategories profile).contains cd.id then
    base ++ " This is a priority area for " ++ profile.industry
      ++ " companies of your size and technology adoption level."
  else base

/-- `generate_dynamic_questions` (api.py lines 222-275): one `RiskQuestion`
per catalogue entry, in catalogue order. -/
def generate_dynamic_questions (profile : CompanyProfile) : List RiskQuestion :=
  RISK_CATEGORIES_DEFINITION.map fun cd =>
    ⟨cd.id, questionTextFor profile cd, cd.category, helperTextFor profile cd, cd.scoring_focus⟩

/-! ## `build_risk_table` (api.py lines 277-340) -/

/-- The keyword lists of api.py lines 299-302. -/
def positive_keywords : List String :=
  ["strong", "comprehensive", "fully implemented", "excellent", "robust",
   "mature", "advanced", "complete", "thorough", "effective"]

def negative_keywords : List String :=
  ["weak", "lacking", "not implemented", "poor", "minimal",
   "immature", "basic", "incomplete", "inadequate", "ineffective"]

/-- The length-based base score (api.py lines 288-296). -/
def baseScore (answer_text : String) : Int :=
  if (strLower answer_text) == "no answer provided" then 2
  else if answer_text.length < 20 then 4
  else if answer_text.length < 100 then 6
  else 8

/-- The keyword adjustment (api.py lines 304-307): a positive keyword raises
the score by 2 (clamped at `max_score`), otherwise a negative keyword lowers
it by 2 (clamped at 0). -/
def kwAdjust (max_score : Int) (answer_text : String) (score : Int) : Int :=
  if positive_keywords.any (fun kw => strContainsSub (strLower answer_text) kw) then
    min max_score (score + 2)
  else if negative_keywords.any (fun kw => strContainsSub (strLower answer_text) kw) then
    max 0 (score - 2)
  else score

/-- The per-category score (api.py lines 288-310 including the final
`max(0, min(max_score, score))` clamp). -/
def scoreFor (max_score : Int) (answer_text : String) : Int :=
  max 0 (min max_score (kwAdjust max_score answer_text (baseScore answer_text)))

/-- The per-row explanation f-string (api.py lines 313-314). -/
def explanationFor (cd : RiskCategoryDef) (answer_text : String) : String :=
  "Based on your response: \x27" ++ strTake answer_text 100
    ++ (if answer_text.length > 100 then "..." else "") ++ "\x27. "
    ++ "Assessment focused on " ++ cd.scoring_focus ++ "."

/-- One row of the risk table (api.py lines 317-326). -/
def mkRow (cd : RiskCategoryDef) (answer_text : String) : RiskTableRow :=
  ⟨cd.id, cd.category, cd.definition, cd.scoring_focus,
   scoreFor cd.max_score answer_text, cd.max_score, cd.weight,
   explanationFor cd answer_text⟩

/-- A plain decimal rendering of a rational, used only inside the
`data_insights` strings.  (The real program renders the Python float
`weight*100` here; the float `repr` digits are abstracted since no
specification claim depends on the insight strings.) -/
def ratRepr (q : ℚ) : String :=
  toString q.num ++ (if q.den == 1 then ".0" else "/" ++ toString q.den)

/-- One `data_insights` line (api.py line 333). -/
def insightFor (cd : RiskCategoryDef) (answer_text : String) : String :=
  cd.category ++ " (Weight: " ++ ratRepr (cd.weight * 100) ++ "%): Score "
    ++ toString (scoreFor cd.max_score answer_text) ++ "/" ++ toString cd.max_score
    ++ ". " ++ explanationFor cd answer_text

/-- Python `round(x, 2)` (round-half-to-even at two decimals), exactly on ℚ. -/
def pyRound2 (q : ℚ) : ℚ :=
  let x := q * 100
  let f := ⌊x⌋
  let r := x - f
  let n : Int :=
    if r < 1/2 then f
    else if 1/2 < r then f + 1
    else if f % 2 == 0 then f else f + 1
  (n : ℚ) / 100

/-- The risk-table rows: one `mkRow` per catalogue entry, in catalogue order
(the loop of api.py lines 284-326). -/
def buildRows (answers : List (String × String)) : List RiskTableRow :=
  RISK_CATEGORIES_DEFINITION.map fun cd =>
    mkRow cd (dictGetD answers cd.id "No answer provided")

/-- `total_weighted_score_sum` (api.py line 329). -/
def totalWeightedScoreSum (answers : List (String × String)) : ℚ :=
  ((buildRows answers).map (fun r => (r.score : ℚ) * r.weight)).sum

/-- `total_weight_sum` (api.py line 330). -/
def totalWeightSum (answers : List (String × String)) : ℚ :=
  ((buildRows answers).map (fun r => r.weight)).sum

/-- `overall_score_normalized` (api.py lines 336-337). -/
def overallScore (answers : List (String × String)) : ℚ :=
  pyRound2 (if 0 < totalWeightSum answers then
    totalWeightedScoreSum answers / (10 * totalWeightSum answers) * 100
  else 0)

/-- `build_risk_table` (api.py lines 277-340).  Returns the risk table, the
normalized overall score and the data insights.  The `profile` argument is
unused by the body of the source function, as in the source. -/
def build_risk_table (_profile : CompanyProfile) (answers : List (String × String)) :
    List RiskTableRow × ℚ × List String :=
  (buildRows answers, overallScore answers,
   RISK_CATEGORIES_DEFINITION.map fun cd =>
     insightFor cd (dictGetD answers cd.id "No answer provided"))

/-! ## `retrieve_rag_context` (api.py lines 342-406)

The vector store is an external capability; the embedded function takes the
list of documents returned by `db.similarity_search(query, k=3)` as an
argument.  Query construction (lines 348-368) and budgeted context assembly
(lines 376-400) are transcribed from the source. -/

/-- Python `sorted(risk_table, key=lambda x: x.score)` (api.py line 349).
Python `sorted` is specified by the language as a stable sort; `List.mergeSort`
with the same key comparison is stable in exactly that sense. -/
def pySortedByScore (risk_table : List RiskTableRow) : List RiskTableRow :=
  risk_table.mergeSort (fun a b => a.score ≤ b.score)

/-- The three "Key risk areas" labels (api.py line 350). -/
def highRiskCategories (risk_table : List RiskTableRow) : List String :=
  ((pySortedByScore risk_table).take 3).map fun r =>
    r.category ++ " (" ++ r.scoring_focus ++ ")"

/-- Category lookup for an answer id (api.py line 365). -/
def categoryNameFor (risk_id : String) : String :=
  match RISK_CATEGORIES_DEFINITION.find? (fun cd => cd.id == risk_id) with
  | some cd => cd.category
  | none => risk_id

/-- The three answer-excerpt lines (api.py lines 364-366): the first three
entries of the answers dict, each answer truncated to 100 characters. -/
def answerExcerptParts (answers : List (String × String)) : List String :=
  (answers.take 3).map fun p =>
    "Response about " ++ categoryNameFor p.1 ++ ": " ++ strTake p.2 100

/-- The `query_parts` list (api.py lines 353-366). -/
def queryParts (profile : CompanyProfile) (answers : List (String × String))
    (risk_table : List RiskTableRow) : List String :=
  ["Company industry: " ++ profile.industry,
   "Company size: " ++ profile.size,
   "Technology adoption level: " ++ profile.tech_adoption,
   "Security controls summary: " ++ strTake profile.security_controls 150,
   "Risk posture summary: " ++ strTake profile.risk_posture 150,
   "Emerging technologies: " ++ String.intercalate ", " profile.emerging_technologies,
   "Key risk areas: " ++ String.intercalate ", " (highRiskCategories risk_table)]
  ++ answerExcerptParts answers

/-- The retrieval query string (api.py line 368). -/
def retrievalQuery (profile : CompanyProfile) (answers : List (String × String))
    (risk_table : List RiskTableRow) : String :=
  String.intercalate "\n" (queryParts profile answers risk_table)

/-- A document returned by the similarity search: its source metadata entry
(absent modelled as `none`, read with default `"Unknown"`, api.py line 381) and its
`page_content`. -/
structure RagDoc where
  metadata_source : Option String
  page_content : String

/-- `source_info` for one document (api.py line 381). -/
def sourceInfo (d : RagDoc) : String :=
  "Source: " ++ d.metadata_source.getD "Unknown"

def MAX_RAG_CONTEXT_CHARS : Nat := 1000

def ragSeparator : String := "\n\n---\n\n"

/-- `per_doc_content_budget` (api.py lines 385-386): integer division of the
total budget by the document count, minus overheads, floored at 50. -/
def perDocBudget (numDocs : Nat) (d : RagDoc) : Int :=
  max 50 ((MAX_RAG_CONTEXT_CHARS / numDocs : Nat) - (sourceInfo d).length
    - ragSeparator.length - 10 : Int)

/-- The content actually contributed by one document: `page_content`
truncated to the per-document budget (api.py line 389). -/
def includedContent (numDocs : Nat) (d : RagDoc) : String :=
  strTake d.page_content (perDocBudget numDocs d).toNat

/-- `doc_context_segment` (api.py line 390). -/
def docSegment (numDocs : Nat) (d : RagDoc) : String :=
  sourceInfo d ++ "\nContent: " ++ includedContent numDocs d

/-- Python `separator.join(parts)`. -/
def joinSep (sep : String) : List String → String
  | [] => ""
  | [s] => s
  | s :: rest => s ++ sep ++ joinSep sep rest

/-- The accumulation loop of api.py lines 380-397: append each segment unless
doing so would push the running total past `MAX_RAG_CONTEXT_CHARS`, in which
case stop (`break`). -/
def ragLoop (numDocs : Nat) : List RagDoc → List String → Nat → List String
  | [], parts, _ => parts
  | d :: rest, parts, cur =>
    let seg := docSegment numDocs d
    if cur + seg.length + (if parts.isEmpty then 0 else ragSeparator.length)
        > MAX_RAG_CONTEXT_CHARS then
      parts
    else
      let parts2 := parts ++ [seg]
      ragLoop numDocs rest parts2
        (cur + seg.length + (if parts2.length > 1 then ragSeparator.length else 0))

/-- The retrieved-context string assembled from the similarity-search results
(api.py lines 376-400, the non-exception path). -/
def buildRagContext (docs : List RagDoc) : String :=
  joinSep ragSeparator (ragLoop docs.length docs [] 0)

/-! ## Prompt-budget assembly (`generate_llm_advice_async`, api.py lines 414-498)

The prompt is assembled from static template parts (the header embeds the
emerging-technologies join of the profile), a truncated profile summary, the
truncated `json.dumps` of the top-5-risk answers, the truncated `json.dumps`
of the top-8 risk-table rows, and the retrieved context.  The two
`json.dumps` serializations (api.py lines 474-475) enter the prompt only
through hard character truncation, so the embedded assembler takes those full
serialization strings as arguments and the budget theorems quantify over
them. -/

def TARGET_LLM_PROMPT_TOTAL_CHARS : Nat := 3600

/-- `static_prompt_header` up to the interpolated emerging-technologies join
(api.py lines 415-418). -/
def staticHeaderPre : String :=
  "\nYou are an expert cybersecurity and emerging technology risk management advisor.\n"
  ++ "Given the following company profile, their answers to risk assessment questions, the calculated risk table, and relevant context from governance documents, provide:\n"
  ++ "1. Actionable, prioritized recommendations to mitigate identified risks and improve their posture for adopting emerging technologies ("

/-- `static_prompt_header` after the interpolated join (api.py lines 418-436). -/
def staticHeaderPost : String :=
  ").\n2. Links to 2-3 key resources (from the provided context or well-known standards) that are most relevant to their highest risk areas.\n"
  ++ "\nRespond ONLY with a single valid JSON object in the following format (no extra text before or after the JSON object):\n"
  ++ "\n\x7b\n  \"recommendations\": [\n    \"Recommendation 1 (with brief rationale)...\",\n    \"Recommendation 2 (with brief rationale)...\"\n  ],\n"
  ++ "  \"resources\": [\n    \x7b\"title\": \"Resource Title 1\", \"url\": \"Resource URL 1 (if available from context, otherwise general standard)\"\x7d,\n"
  ++ "    \x7b\"title\": \"Resource Title 2\", \"url\": \"Resource URL 2\"\x7d\n  ],\n"
  ++ "  \"rawLLMOutput\": \"Your detailed thought process and summary of key risks observed before formulating recommendations.\"\n\x7d\n"
  ++ "\nCompany Profile:\n"

def staticHeader (emerging_technologies : List String) : String :=
  staticHeaderPre ++ String.intercalate ", " emerging_technologies ++ staticHeaderPost

def staticAnswersHeader : String := "\n\nRisk Assessment Answers:\n"

def staticTableHeader : String := "\n\nCalculated Risk Table (Scores out of 10, lower is worse):\n"

def staticContextHeader : String := "\n\nRelevant Context from Knowledge Base:\n"

def staticFooter : String :=
  "\n\nFocus on providing practical, actionable advice. Prioritize recommendations based on the risk scores (lower scores indicate higher risk) and their weights.\n"

/-- `len_static_prompt` (api.py lines 443-449). -/
def lenStaticPrompt (emerging_technologies : List String) : Nat :=
  (staticHeader emerging_technologies).length + staticAnswersHeader.length
    + staticTableHeader.length + staticContextHeader.length + staticFooter.length

/-- `profile_info_full` (api.py line 465). -/
def profileInfoFull (profile : CompanyProfile) : String :=
  "Industry: " ++ profile.industry ++ ", Size: " ++ profile.size
    ++ ", Tech Adoption: " ++ profile.tech_adoption
    ++ ", Stated Controls: " ++ profile.security_controls
    ++ ", Stated Posture: " ++ profile.risk_posture
    ++ ", Emerging Tech: " ++ String.intercalate ", " profile.emerging_technologies

/-- The context actually placed in the prompt: if the static parts plus the
retrieved context already exceed the target, the context is re-truncated to
`max(0, MAX_RAG_CONTEXT_CHARS // 2)` characters (api.py lines 458-462). -/
def effectiveContext (emerging_technologies : List String) (context : String) : String :=
  if (TARGET_LLM_PROMPT_TOTAL_CHARS : Int) - lenStaticPrompt emerging_technologies
      - context.length < 0 then
    pySlice context (max 0 (MAX_RAG_CONTEXT_CHARS / 2 : Nat))
  else context

/-- `budget_for_other_dynamic_parts` after the possible context re-truncation
(api.py lines 453-462). -/
def dynamicBudget (emerging_technologies : List String) (context : String) : Int :=
  (TARGET_LLM_PROMPT_TOTAL_CHARS : Int) - lenStaticPrompt emerging_technologies
    - (effectiveContext emerging_technologies context).length

/-- The assembled prompt (api.py lines 477-496): the dynamic budget is split
20% / 40% / 40% (Python `int(budget * 0.20)` etc., exact on ℚ), each dynamic
block is hard-truncated to its share, and the pieces are concatenated with
the static template parts. -/
def assembledPrompt (emerging_technologies : List String)
    (profile_info_full answers_json_full risk_table_json_full context : String) : String :=
  let budget := dynamicBudget emerging_technologies context
  let ctx := effectiveContext emerging_technologies context
  let profile_chars_limit := pyTrunc ((budget : ℚ) * (20/100))
  let answers_json_chars_limit := pyTrunc ((budget : ℚ) * (40/100))
  let risk_table_json_chars_limit := pyTrunc ((budget : ℚ) * (40/100))
  staticHeader emerging_technologies
    ++ pySlice profile_info_full profile_chars_limit
    ++ staticAnswersHeader ++ pySlice answers_json_full answers_json_chars_limit
    ++ staticTableHeader ++ pySlice risk_table_json_full risk_table_json_chars_limit
    ++ staticContextHeader ++ ctx
    ++ staticFooter

/-- The prompt `generate_llm_advice_async` assembles for a given profile,
given the two `json.dumps` serializations of answer and risk-table data. -/
def generateLlmPrompt (profile : CompanyProfile)
    (answers_json_full risk_table_json_full context : String) : String :=
  assembledPrompt profile.emerging_technologies (profileInfoFull profile)
    answers_json_full risk_table_json_full context

/-! ## JSON values and `json.loads` (used by api.py lines 511-535)

Python JSON values.  Numbers are held exactly in `ℚ` (Python decodes them to
int/float; no claim depends on numeric rounding); the non-finite constants
`NaN` / `Infinity` / `-Infinity`, which the Python default `json.loads`
accepts, get their own constructor. -/

inductive JVal where
  | jnull
  | jbool (b : Bool)
  | jnum (q : ℚ)
  | jnonfinite (negative : Bool) (isNan : Bool)
  | jstr (s : String)
  | jarr (items : List JVal)
  | jobj (fields : List (String × JVal))

/-- JSON whitespace (the characters the Python decoder skips). -/
def jsonWs (c : Char) : Bool :=
  c == ' ' || c == '\t' || c == '\n' || c == '\r'

def skipWs : List Char → List Char
  | [] => []
  | c :: cs => if jsonWs c then skipWs cs else c :: cs

def isDigitCh (c : Char) : Bool := '0' ≤ c && c ≤ '9'

def takeDigits : List Char → List Char × List Char
  | [] => ([], [])
  | c :: cs =>
    if isDigitCh c then
      let (ds, rest) := takeDigits cs
      (c :: ds, rest)
    else ([], c :: cs)

def digitsToNat (ds : List Char) : Nat :=
  ds.foldl (fun n c => 10 * n + (c.toNat - 48)) 0

/-- Parse a JSON number following the Python `NUMBER_RE` regex
(`-?(0|[1-9]\d*)(\.\d+)?([eE][+-]?\d+)?`); components that are not fully
well-formed are left unconsumed, as a regex match would leave them. -/
def parseNum (cs : List Char) : Option (ℚ × List Char) :=
  let (neg, cs1) := match cs with
    | '-' :: t => (true, t)
    | _ => (false, cs)
  match cs1 with
  | c :: t =>
    if ¬ isDigitCh c then none
    else
      let (intDs, rest1) :=
        if c == '0' then ([c], t)
        else
          let (ds, r) := takeDigits t
          (c :: ds, r)
      let (fracDs, rest2) := match rest1 with
        | '.' :: d :: t2 =>
          if isDigitCh d then
            let (ds, r) := takeDigits t2
            (d :: ds, r)
          else ([], rest1)
        | _ => ([], rest1)
      let (expVal, rest3) : Option Int × List Char := match rest2 with
        | e :: t2 =>
          if e == 'e' || e == 'E' then
            let (esign, t3) : Bool × List Char := match t2 with
              | '+' :: t4 => (false, t4)
              | '-' :: t4 => (true, t4)
              | _ => (false, t2)
            match t3 with
            | d :: t4 =>
              if isDigitCh d then
                let (ds, r) := takeDigits t4
                let e0 : Int := (digitsToNat (d :: ds) : Int)
                (some (if esign then -e0 else e0), r)
              else (none, rest2)
            | [] => (none, rest2)
          else (none, rest2)
        | [] => (none, rest2)
      let mantissa : ℚ := (digitsToNat intDs : ℚ)
        + (digitsToNat fracDs : ℚ) / ((10 : ℚ) ^ fracDs.length)
      let scaled : ℚ := match expVal with
        | some e => mantissa * (10 : ℚ) ^ e
        | none => mantissa
      some ((if neg then -scaled else scaled), rest3)
  | [] => none

/-- Hex digit value, `none` if not a hex digit. -/
def hexVal (c : Char) : Option Nat :=
  if isDigitCh c then some (c.toNat - 48)
  else if 'a' ≤ c && c ≤ 'f' then some (c.toNat - 87)
  else if 'A' ≤ c && c ≤ 'F' then some (c.toNat - 70)
  else none

/-- Parse a JSON string body after the opening quote, in the Python strict
mode: raw control characters are rejected, escapes are decoded (`\\uXXXX`
code units outside the scalar range degrade to the `Char.ofNat` default, a
corner the Python surrogate-carrying `str` can represent and Lean cannot; no
claim exercises it). -/
def parseStrBody (fuel : Nat) (acc : List Char) (cs : List Char) :
    Option (String × List Char) :=
  match fuel, cs with
  | 0, _ => none
  | _, [] => none
  | fuel + 1, c :: rest =>
    if c == '\x22' then some (String.mk acc.reverse, rest)
    else if c == '\\' then
      match rest with
      | [] => none
      | e :: rest2 =>
        if e == '\x22' then parseStrBody fuel ('\x22' :: acc) rest2
        else if e == '\\' then parseStrBody fuel ('\\' :: acc) rest2
        else if e == '/' then parseStrBody fuel ('/' :: acc) rest2
        else if e == 'b' then parseStrBody fuel ('\x08' :: acc) rest2
        else if e == 'f' then parseStrBody fuel ('\x0c' :: acc) rest2
        else if e == 'n' then parseStrBody fuel ('\n' :: acc) rest2
        else if e == 'r' then parseStrBody fuel ('\r' :: acc) rest2
        else if e == 't' then parseStrBody fuel ('\t' :: acc) rest2
        else if e == 'u' then
          match rest2 with
          | h1 :: h2 :: h3 :: h4 :: rest3 =>
            match hexVal h1, hexVal h2, hexVal h3, hexVal h4 with
            | some v1, some v2, some v3, some v4 =>
              parseStrBody fuel
                (Char.ofNat (((v1 * 16 + v2) * 16 + v3) * 16 + v4) :: acc) rest3
            | _, _, _, _ => none
          | _ => none
        else none
    else if c.toNat < 32 then none
    else parseStrBody fuel (c :: acc) rest

mutual

/-- Parse one JSON value starting at the given (non-whitespace) position. -/
def parseValue (fuel : Nat) (cs : List Char) : Option (JVal × List Char) :=
  match fuel with
  | 0 => none
  | fuel + 1 =>
    match cs with
    | [] => none
    | c :: rest =>
      if c == '\x7b' then parseObjItems fuel (skipWs rest) [] true
      else if c == '[' then parseArrItems fuel (skipWs rest) [] true
      else if c == '\x22' then
        match parseStrBody (rest.length + 1) [] rest with
        | some (s, r) => some (.jstr s, r)
        | none => none
      else if listStartsWith "true".data cs then some (.jbool true, cs.drop 4)
      else if listStartsWith "false".data cs then some (.jbool false, cs.drop 5)
      else if listStartsWith "null".data cs then some (.jnull, cs.drop 4)
      else if listStartsWith "NaN".data cs then some (.jnonfinite false true, cs.drop 3)
      else if listStartsWith "Infinity".data cs then
        some (.jnonfinite false false, cs.drop 8)
      else if listStartsWith "-Infinity".data cs then
        some (.jnonfinite true false, cs.drop 9)
      else
        match parseNum cs with
        | some (q, r) => some (.jnum q, r)
        | none => none

/-- Parse the items of a JSON object after `{` (whitespace already skipped);
`first` is true before any member has been read. -/
def parseObjItems (fuel : Nat) (cs : List Char) (acc : List (String × JVal))
    (first : Bool) : Option (JVal × List Char) :=
  match fuel with
  | 0 => none
  | fuel + 1 =>
    match cs with
    | '\x7d' :: rest => if first then some (.jobj acc.reverse, rest) else none
    | '\x22' :: rest =>
      match parseStrBody (rest.length + 1) [] rest with
      | some (k, r1) =>
        match skipWs r1 with
        | ':' :: r2 =>
          match parseValue fuel (skipWs r2) with
          | some (v, r3) =>
            match skipWs r3 with
            | ',' :: r4 => parseObjItems fuel (skipWs r4) ((k, v) :: acc) false
            | '\x7d' :: r4 => some (.jobj ((k, v) :: acc).reverse, r4)
            | _ => none
          | none => none
        | _ => none
      | none => none
    | _ => none

/-- Parse the items of a JSON array after `[` (whitespace already skipped). -/
def parseArrItems (fuel : Nat) (cs : List Char) (acc : List JVal)
    (first : Bool) : Option (JVal × List Char) :=
  match fuel with
  | 0 => none
  | fuel + 1 =>
    match cs with
    | ']' :: rest => if first then some (.jarr acc.reverse, rest) else none
    | _ =>
      match parseValue fuel cs with
      | some (v, r1) =>
        match skipWs r1 with
        | ',' :: r2 => parseArrItems fuel (skipWs r2) (v :: acc) false
        | ']' :: r2 => some (.jarr (v :: acc).reverse, r2)
        | _ => none
      | none => none

end

/-- Python `json.loads`: parse one value, then require only trailing
whitespace (otherwise `Extra data` — an error). -/
def jsonLoads (s : String) : Option JVal :=
  match parseValue (2 * s.length + 8) (skipWs s.data) with
  | some (v, rest) => if (skipWs rest).isEmpty then some v else none
  | none => none

/-! ## LLM response parsing and default substitution (api.py lines 511-552) -/

/-- The regex search for a brace-delimited span (api.py line 512): the greedy match spans from the
first opening brace to the last closing brace; there is a match exactly when
some closing brace follows the first opening brace. -/
def extractJsonSpan (s : String) : Option String :=
  let cs := s.data
  match cs.findIdx? (fun c => c == '\x7b'), (cs.reverse.findIdx? (fun c => c == '\x7d')) with
  | some i, some k =>
    let j := cs.length - 1 - k
    if i < j then some (String.mk ((cs.drop i).take (j - i + 1))) else none
  | _, _ => none

/-- Python dict field read `d.get(k, default)` on decoded JSON object pairs
(later duplicate keys shadow earlier ones, as in `dict(pairs)`). -/
def objGetD (fields : List (String × JVal)) (k : String) (dflt : JVal) : JVal :=
  match fields.reverse.find? (fun p => p.1 == k) with
  | some p => p.2
  | none => dflt

/-- Fallback when the regex finds no JSON object (api.py line 528). -/
def noJsonRecs : JVal :=
  .jarr [.jstr "LLM did not return a JSON object. Storing raw output."]

/-- Fallback when the matched span fails to decode (api.py line 523). -/
def badJsonRecs : JVal :=
  .jarr [.jstr "LLM response was not valid JSON. Please check logs."]

/-- Default used when the decoded object lacks `recommendations`
(api.py line 517). -/
def missingRecsDefault : JVal :=
  .jarr [.jstr "LLM failed to provide structured recommendations."]

/-- The parsing step (api.py lines 511-530): extract the brace span, decode
it, and read the three fields with their per-field defaults; on no match or
decode failure return the explanatory fallback with the raw output as
summary.  Total by construction — every Python exception path
(`JSONDecodeError`) is a `none` of `jsonLoads`. -/
def parseLlmOutput (output : String) : JVal × JVal × JVal :=
  match extractJsonSpan output with
  | none => (noJsonRecs, .jarr [], .jstr output)
  | some json_str =>
    match jsonLoads json_str with
    | some (.jobj fields) =>
      (objGetD fields "recommendations" missingRecsDefault,
       objGetD fields "resources" (.jarr []),
       objGetD fields "rawLLMOutput" (.jstr output))
    | some _ => (badJsonRecs, .jarr [], .jstr output)
    | none => (badJsonRecs, .jarr [], .jstr output)

/-- Python truthiness of a decoded JSON value. -/
def pyTruthy : JVal → Bool
  | .jnull => false
  | .jbool b => b
  | .jnum q => !(q == 0)
  | .jnonfinite _ _ => true
  | .jstr s => !s.isEmpty
  | .jarr items => !items.isEmpty
  | .jobj fields => !fields.isEmpty

/-- Python `len` on a decoded JSON value: defined for str/list/dict, a
`TypeError` otherwise. -/
def pyLen : JVal → Option Nat
  | .jstr s => some s.length
  | .jarr items => some items.length
  | .jobj fields => some fields.length
  | _ => none

def defaultRecommendations : JVal :=
  .jarr [.jstr "Implement a formal risk assessment process for emerging technology adoption.",
         .jstr "Develop a comprehensive security framework aligned with industry standards.",
         .jstr "Establish clear governance procedures for technology evaluation and implementation."]

def defaultResources : JVal :=
  .jarr [.jobj [("title", .jstr "NIST Cybersecurity Framework"),
                ("url", .jstr "https://www.nist.gov/cyberframework")],
         .jobj [("title", .jstr "ISO/IEC 27001 Information Security Management"),
                ("url", .jstr "https://www.iso.org/isoiec-27001-information-security.html")]]

/-- `if not v or len(v) == 0: v = dflt` (api.py lines 538, 546): a falsy
value short-circuits to the default; otherwise Python evaluates `len(v)`,
raising `TypeError` on values with no length. -/
def ensureNonempty (dflt : JVal) (v : JVal) : Except String JVal :=
  if !pyTruthy v then .ok dflt
  else match pyLen v with
    | some n => if n == 0 then .ok dflt else .ok v
    | none => .error "TypeError: object has no length"

/-- The response-handling tail of `generate_llm_advice_async`
(api.py lines 511-552) as a function of the raw model output: parse, then
substitute the hard-coded defaults for empty recommendations/resources.
`Except.error` marks an uncaught Python exception escaping the function. -/
def generateLlmAdvice (output : String) : Except String (JVal × JVal × JVal) :=
  match ensureNonempty defaultRecommendations (parseLlmOutput output).1 with
  | .error e => .error e
  | .ok recs =>
    match ensureNonempty defaultResources (parseLlmOutput output).2.1 with
    | .error e => .error e
    | .ok ress => .ok (recs, ress, (parseLlmOutput output).2.2)

/-- `v` is a decoded JSON array (a Python list). -/
def isJArr : JVal → Bool
  | .jarr _ => true
  | _ => false

/-- The triple returned by the qa-chain-not-ready early return of
`generate_llm_advice_async` (api.py lines 410-412).  Its resources component
is the empty list, and this return bypasses the default substitution of
lines 537-550 entirely. -/
def notReadyTriple : JVal × JVal × JVal :=
  (.jarr [.jstr "LLM advice generation failed: RAG pipeline not ready."],
   .jarr [], .jstr "QA chain not initialized.")

/-- The triple set by the `except` branch around the LLM invocation
(api.py lines 531-535); unlike the not-ready early return, this triple does
flow into the default substitution of lines 537-550. -/
def exceptBranchTriple (e : String) : JVal × JVal × JVal :=
  (.jarr [.jstr "An error occurred while generating LLM advice."],
   .jarr [], .jstr ("Error: " ++ e))

/-- The default-substitution tail of `generate_llm_advice_async`
(api.py lines 537-552) applied to an arbitrary advice triple. -/
def applyDefaults (t : JVal × JVal × JVal) : Except String (JVal × JVal × JVal) :=
  match ensureNonempty defaultRecommendations t.1 with
  | .error e => .error e
  | .ok recs =>
    match ensureNonempty defaultResources t.2.1 with
    | .error e => .error e
    | .ok ress => .ok (recs, ress, t.2.2)

/-- `generate_llm_advice_async` end to end (api.py lines 408-552), with the
qa-chain readiness flag and the outcome of the LLM invocation (the raw
output string, or the message of the exception it raised) as capability
parameters.  The not-ready guard returns its literal triple at once
(api.py lines 410-412, no default substitution); a raised invocation
exception yields the except-branch triple, which then passes through the
substitution tail; otherwise the raw output is parsed and substituted as in
`generateLlmAdvice`. -/
def generate_llm_advice_full (qaChainReady : Bool)
    (invokeResult : Except String String) : Except String (JVal × JVal × JVal) :=
  if !qaChainReady then .ok notReadyTriple
  else
    match invokeResult with
    | .ok output => generateLlmAdvice output
    | .error e => applyDefaults (exceptBranchTriple e)

/-! ## `load_existing_embeddings` (rag_pipeline/store.py lines 28-55)

The Chroma store, the document loader and the chunker are external
capabilities: the embedded function takes the outcome of the
`Chroma(persist_directory=..., embedding_function=...)` constructor call,
whether the persist directory exists on disk, the documents
`load_documents` finds, and the chunking function. -/

/-- A Chroma vector store, abstracted to the chunks it was built from (all
any claim observes about it). -/
structure ChromaStore where
  chunks : List RagDoc

/-- `store_embeddings` / `Chroma.from_documents` (store.py lines 15-25):
a fresh store holds exactly the given chunks. -/
def store_embeddings (chunks : List RagDoc) : ChromaStore := ⟨chunks⟩

/-- Outcome of the `Chroma(...)` constructor on the persisted directory:
success, a `KeyError` (the corrupted-manifest failure mode the source
catches), or any other exception. -/
inductive ChromaLoadAttempt where
  | ok (store : ChromaStore)
  | keyError (msg : String)
  | otherError (msg : String)

/-- Result of `load_existing_embeddings`: whether the persisted directory was
removed, and either the resulting store or the uncaught exception. -/
structure LoadOutcome where
  removedDir : Bool
  result : Except String ChromaStore

/-- `load_existing_embeddings` (store.py lines 28-55): on a `KeyError` the
corrupted directory is removed (if present) and the store is rebuilt from the
source documents; zero rebuilt documents is a fatal `RuntimeError`; any other
exception propagates. -/
def load_existing_embeddings (attempt : ChromaLoadAttempt) (persistDirOnDisk : Bool)
    (docsDir : String) (sourceDocs : List RagDoc)
    (chunker : List RagDoc → List RagDoc) : LoadOutcome :=
  match attempt with
  | .ok store => ⟨false, .ok store⟩
  | .keyError _ =>
    if sourceDocs.isEmpty then
      ⟨persistDirOnDisk,
       .error ("No documents found in " ++ docsDir ++ " to rebuild embeddings.")⟩
    else
      ⟨persistDirOnDisk, .ok (store_embeddings (chunker sourceDocs))⟩
  | .otherError msg => ⟨false, .error msg⟩

/-- The ordering criterion of the claim, stated from the words of the spec: ascending
score, ties broken by position in the catalogue-ordered table (index in the
enumerated list). -/
def catalogueLexLe (a b : Nat × RiskTableRow) : Bool :=
  decide (a.2.score < b.2.score)
    || (decide (a.2.score = b.2.score) && decide (a.1 ≤ b.1))

/-- Modelled from the claim: the 3 lowest-scoring rows, ordered by ascending
score with ties broken by catalogue order — sort the index-tagged table by
the lexicographic (score, index) criterion and take the first three. -/
def specLowestRows (risk_table : List RiskTableRow) : List RiskTableRow :=
  (((risk_table.enum).mergeSort catalogueLexLe).map Prod.snd).take 3

/-! ## Theorems -/

theorem append_length_pos (s t : String) (h : 0 < s.length) : 0 < (s ++ t).length := by
  rw [strLen_append]; omega

/-- Claim C9: For every company profile, `generate_dynamic_questions` returns
exactly one question per catalogue category — the returned ids are exactly the
22 catalogue ids in order — and every returned question has non-empty
question text. -/
theorem c9_one_question_per_category (profile : CompanyProfile) :
    (generate_dynamic_questions profile).map (fun q => q.id)
        = RISK_CATEGORIES_DEFINITION.map (fun cd => cd.id)
      ∧ (generate_dynamic_questions profile).length = 22
      ∧ ∀ q ∈ generate_dynamic_questions profile, 0 < q.question_text.length := by
  refine ⟨?_, ?_, ?_⟩
  · simp [generate_dynamic_questions, List.map_map]
  · simp [generate_dynamic_questions]
    rfl
  · intro q hq
    simp only [generate_dynamic_questions, List.mem_map] at hq
    obtain ⟨cd, _, rfl⟩ := hq
    show 0 < (questionTextFor profile cd).length
    unfold questionTextFor
    split
    · repeat apply append_length_pos
      decide
    · split
      · repeat apply append_length_pos
        decide
      · repeat apply append_length_pos
        decide

/-- Witness for C9: the statement instantiated at a concrete profile. -/
theorem c9_one_question_per_category_witness :
    (generate_dynamic_questions ⟨"Healthcare", "Small", "Early Adopter", "Basic controls",
        "Cautious", ["AI"]⟩).map (fun q => q.id)
        = RISK_CATEGORIES_DEFINITION.map (fun cd => cd.id)
      ∧ (generate_dynamic_questions ⟨"Healthcare", "Small", "Early Adopter", "Basic controls",
          "Cautious", ["AI"]⟩).length = 22
      ∧ ∀ q ∈ generate_dynamic_questions ⟨"Healthcare", "Small", "Early Adopter",
          "Basic controls", "Cautious", ["AI"]⟩, 0 < q.question_text.length :=
  c9_one_question_per_category _

@[simp] theorem mkRow_score (cd : RiskCategoryDef) (t : String) :
    (mkRow cd t).score = scoreFor cd.max_score t := rfl

@[simp] theorem mkRow_weight (cd : RiskCategoryDef) (t : String) :
    (mkRow cd t).weight = cd.weight := rfl

@[simp] theorem mkRow_max_score (cd : RiskCategoryDef) (t : String) :
    (mkRow cd t).max_score = cd.max_score := rfl

@[simp] theorem mkRow_id (cd : RiskCategoryDef) (t : String) :
    (mkRow cd t).id = cd.id := rfl

theorem catalogue_max_score :
    ∀ cd ∈ RISK_CATEGORIES_DEFINITION, cd.max_score = 10 := by
  decide

theorem catalogue_weight_nonneg :
    ∀ cd ∈ RISK_CATEGORIES_DEFINITION, 0 ≤ cd.weight := by
  simp only [RISK_CATEGORIES_DEFINITION, List.mem_cons, List.not_mem_nil, or_false]
  rintro cd (rfl | rfl | rfl | rfl | rfl | rfl | rfl | rfl | rfl | rfl | rfl |
    rfl | rfl | rfl | rfl | rfl | rfl | rfl | rfl | rfl | rfl | rfl) <;> norm_num

theorem catalogue_weight_sum :
    (RISK_CATEGORIES_DEFINITION.map (fun cd => cd.weight)).sum = 99/100 := by
  simp only [RISK_CATEGORIES_DEFINITION, List.map_cons, List.map_nil, List.sum_cons,
    List.sum_nil]
  norm_num

theorem scoreFor_nonneg (m : Int) (t : String) : 0 ≤ scoreFor m t :=
  le_max_left 0 _

theorem scoreFor_le (m : Int) (t : String) (hm : 0 ≤ m) : scoreFor m t ≤ m := by
  unfold scoreFor
  have h := min_le_left m (kwAdjust m t (baseScore t))
  omega

theorem pyRound2_nonneg (q : ℚ) (h : 0 ≤ q) : 0 ≤ pyRound2 q := by
  unfold pyRound2
  have hx : (0:ℚ) ≤ q * 100 := by positivity
  have hf : 0 ≤ ⌊q * 100⌋ := Int.floor_nonneg.mpr hx
  have hn : (0:Int) ≤ (if q * 100 - ⌊q * 100⌋ < 1/2 then ⌊q * 100⌋
      else if 1/2 < q * 100 - ⌊q * 100⌋ then ⌊q * 100⌋ + 1
      else if ⌊q * 100⌋ % 2 == 0 then ⌊q * 100⌋ else ⌊q * 100⌋ + 1) := by
    split
    · exact hf
    · split
      · omega
      · split
        · exact hf
        · omega
  have : (0:ℚ) ≤ ((if q * 100 - ⌊q * 100⌋ < 1/2 then ⌊q * 100⌋
      else if 1/2 < q * 100 - ⌊q * 100⌋ then ⌊q * 100⌋ + 1
      else if ⌊q * 100⌋ % 2 == 0 then ⌊q * 100⌋ else ⌊q * 100⌋ + 1 : Int) : ℚ) := by
    exact_mod_cast hn
  positivity

theorem pyRound2_le_100 (q : ℚ) (h : q ≤ 100) : pyRound2 q ≤ 100 := by
  unfold pyRound2
  have hx : q * 100 ≤ 10000 := by nlinarith
  have hf : ⌊q * 100⌋ ≤ 10000 := by
    have : ⌊q * 100⌋ ≤ ⌊(10000:ℚ)⌋ := Int.floor_le_floor hx
    simpa using this
  have hn : (if q * 100 - ⌊q * 100⌋ < 1/2 then ⌊q * 100⌋
      else if 1/2 < q * 100 - ⌊q * 100⌋ then ⌊q * 100⌋ + 1
      else if ⌊q * 100⌋ % 2 == 0 then ⌊q * 100⌋ else ⌊q * 100⌋ + 1) ≤ (10000:Int) := by
    have hfl : (⌊q * 100⌋ : ℚ) ≤ q * 100 := Int.floor_le _
    split
    · exact hf
    · -- the fractional part is at least 1/2, so the floor is at most 9999
      rename_i h1
      have hlt : (⌊q * 100⌋ : ℚ) < 10000 := by
        have : (1:ℚ)/2 ≤ q * 100 - ⌊q * 100⌋ := le_of_not_lt h1
        linarith
      have : ⌊q * 100⌋ < 10000 := by exact_mod_cast hlt
      split
      · omega
      · split
        · omega
        · omega
  have hcast : ((if q * 100 - ⌊q * 100⌋ < 1/2 then ⌊q * 100⌋
      else if 1/2 < q * 100 - ⌊q * 100⌋ then ⌊q * 100⌋ + 1
      else if ⌊q * 100⌋ % 2 == 0 then ⌊q * 100⌋ else ⌊q * 100⌋ + 1 : Int) : ℚ) ≤ 10000 := by
    exact_mod_cast hn
  linarith

theorem build_weight_sum (answers : List (String × String)) :
    totalWeightSum answers = 99/100 := by
  rw [totalWeightSum, buildRows, List.map_map]
  have : ((fun r : RiskTableRow => r.weight) ∘
      fun cd => mkRow cd (dictGetD answers cd.id "No answer provided"))
      = fun cd : RiskCategoryDef => cd.weight := rfl
  rw [this, catalogue_weight_sum]

theorem build_weighted_sum_nonneg (answers : List (String × String)) :
    0 ≤ totalWeightedScoreSum answers := by
  apply List.sum_nonneg
  intro x hx
  obtain ⟨r, hr, rfl⟩ := List.mem_map.1 hx
  rw [buildRows] at hr
  obtain ⟨cd, hcd, rfl⟩ := List.mem_map.1 hr
  have h1 : (0:ℚ) ≤ ((mkRow cd (dictGetD answers cd.id "No answer provided")).score : ℚ) := by
    rw [mkRow_score]
    exact_mod_cast scoreFor_nonneg _ _
  exact mul_nonneg h1 (by rw [mkRow_weight]; exact catalogue_weight_nonneg cd hcd)

theorem build_weighted_sum_le (answers : List (String × String)) :
    totalWeightedScoreSum answers ≤ 10 * totalWeightSum answers := by
  rw [totalWeightedScoreSum, totalWeightSum, ← List.sum_map_mul_left]
  apply List.sum_le_sum
  intro r hr
  rw [buildRows] at hr
  obtain ⟨cd, hcd, rfl⟩ := List.mem_map.1 hr
  rw [mkRow_score, mkRow_weight]
  have hw : (0:ℚ) ≤ cd.weight := catalogue_weight_nonneg cd hcd
  have hs : scoreFor cd.max_score (dictGetD answers cd.id "No answer provided") ≤ 10 :=
    calc scoreFor cd.max_score (dictGetD answers cd.id "No answer provided")
        ≤ cd.max_score := scoreFor_le _ _ (by rw [catalogue_max_score cd hcd]; norm_num)
      _ = 10 := catalogue_max_score cd hcd
  have hsq : ((scoreFor cd.max_score (dictGetD answers cd.id "No answer provided") : Int) : ℚ)
      ≤ 10 := by exact_mod_cast hs
  exact mul_le_mul_of_nonneg_right hsq hw

/-- Claim C7: For every company profile and answers dict, `build_risk_table`
returns an overall weighted score between 0 and 100, equal to the rounded
weight-normalized sum of the per-category scores, each of which is clamped
to `[0, max_score]`. -/
theorem c7_overall_score_bounds (profile : CompanyProfile)
    (answers : List (String × String)) :
    0 ≤ (build_risk_table profile answers).2.1
      ∧ (build_risk_table profile answers).2.1 ≤ 100
      ∧ (build_risk_table profile answers).2.1
        = pyRound2 (totalWeightedScoreSum answers / (10 * totalWeightSum answers) * 100)
      ∧ ∀ r ∈ (build_risk_table profile answers).1, 0 ≤ r.score ∧ r.score ≤ r.max_score := by
  have htw := build_weight_sum answers
  have htws0 := build_weighted_sum_nonneg answers
  have htwsle := build_weighted_sum_le answers
  have hpos : 0 < totalWeightSum answers := by rw [htw]; norm_num
  have hoverall : (build_risk_table profile answers).2.1
      = pyRound2 (totalWeightedScoreSum answers / (10 * totalWeightSum answers) * 100) := by
    show overallScore answers = _
    rw [overallScore, if_pos hpos]
  have hratio0 : (0:ℚ)
      ≤ totalWeightedScoreSum answers / (10 * totalWeightSum answers) * 100 := by
    positivity
  have hratio1 : totalWeightedScoreSum answers / (10 * totalWeightSum answers) * 100
      ≤ 100 := by
    have hd : totalWeightedScoreSum answers / (10 * totalWeightSum answers) ≤ 1 := by
      rw [div_le_one (by positivity)]
      exact htwsle
    nlinarith
  refine ⟨?_, ?_, hoverall, ?_⟩
  · rw [hoverall]; exact pyRound2_nonneg _ hratio0
  · rw [hoverall]; exact pyRound2_le_100 _ hratio1
  · intro r hr
    have hr2 : r ∈ buildRows answers := hr
    rw [buildRows] at hr2
    obtain ⟨cd, hcd, rfl⟩ := List.mem_map.1 hr2
    rw [mkRow_score, mkRow_max_score]
    exact ⟨scoreFor_nonneg _ _, scoreFor_le _ _
      (by rw [catalogue_max_score cd hcd]; norm_num)⟩

/-- Witness for C7: the statement instantiated at a concrete profile and a
concrete answers dict. -/
theorem c7_overall_score_bounds_witness :
    0 ≤ (build_risk_table ⟨"Tech", "Small", "Leader", "MFA", "Low", ["AI"]⟩
        [("grc", "strong governance")]).2.1
      ∧ (build_risk_table ⟨"Tech", "Small", "Leader", "MFA", "Low", ["AI"]⟩
          [("grc", "strong governance")]).2.1 ≤ 100
      ∧ (build_risk_table ⟨"Tech", "Small", "Leader", "MFA", "Low", ["AI"]⟩
          [("grc", "strong governance")]).2.1
        = pyRound2 (totalWeightedScoreSum [("grc", "strong governance")]
            / (10 * totalWeightSum [("grc", "strong governance")]) * 100)
      ∧ ∀ r ∈ (build_risk_table ⟨"Tech", "Small", "Leader", "MFA", "Low", ["AI"]⟩
          [("grc", "strong governance")]).1, 0 ≤ r.score ∧ r.score ≤ r.max_score :=
  c7_overall_score_bounds _ _

/-- Claim C8: For an answers dict in which a catalogue category is answered
"We have comprehensive, fully implemented MFA and RBAC across all systems",
`build_risk_table` gives the row of that category a score of at least the
length-based base score plus 2 (the positive-keyword boost), clamped to the
max score of the category.  (The base score of this 72-character answer is 6.) -/
theorem c8_positive_keyword_boost (profile : CompanyProfile)
    (answers : List (String × String)) (cd : RiskCategoryDef)
    (hcd : cd ∈ RISK_CATEGORIES_DEFINITION)
    (ha : dictGetD answers cd.id "No answer provided"
      = "We have comprehensive, fully implemented MFA and RBAC across all systems") :
    ∃ r ∈ (build_risk_table profile answers).1, r.id = cd.id
      ∧ baseScore "We have comprehensive, fully implemented MFA and RBAC across all systems" = 6
      ∧ min (baseScore "We have comprehensive, fully implemented MFA and RBAC across all systems"
          + 2) cd.max_score ≤ r.score := by
  refine ⟨mkRow cd (dictGetD answers cd.id "No answer provided"), ?_, rfl, by decide, ?_⟩
  · exact List.mem_map.2 ⟨cd, hcd, rfl⟩
  · rw [mkRow_score, ha, catalogue_max_score cd hcd]
    decide

/-- Witness for C8: the access-management category answered with the scenario
text in a one-entry answers dict. -/
theorem c8_positive_keyword_boost_witness :
    ∃ r ∈ (build_risk_table ⟨"Tech", "Small", "Leader", "MFA", "Low", ["AI"]⟩
        [("access_management",
          "We have comprehensive, fully implemented MFA and RBAC across all systems")]).1,
      r.id = (RISK_CATEGORIES_DEFINITION.get ⟨7, by decide⟩).id
      ∧ baseScore "We have comprehensive, fully implemented MFA and RBAC across all systems" = 6
      ∧ min (baseScore "We have comprehensive, fully implemented MFA and RBAC across all systems"
          + 2) (RISK_CATEGORIES_DEFINITION.get ⟨7, by decide⟩).max_score ≤ r.score :=
  c8_positive_keyword_boost _ _ _ (RISK_CATEGORIES_DEFINITION.get_mem _ _) (by rfl)

/-- Claim C5: A persisted vector store whose load fails with the
corrupted-manifest `KeyError` is handled: the store directory is removed
(when present on disk) and the index is rebuilt from the source documents,
yielding exactly the store a fresh `store_embeddings` build over the chunked
documents yields; if zero source documents are found the failure is a fatal
error. -/
theorem c5_selfheal_rebuild (msg : String) (persistDirOnDisk : Bool) (docsDir : String)
    (sourceDocs : List RagDoc) (chunker : List RagDoc → List RagDoc)
    (hne : sourceDocs ≠ []) :
    (load_existing_embeddings (.keyError msg) persistDirOnDisk docsDir sourceDocs chunker
        = ⟨persistDirOnDisk, .ok (store_embeddings (chunker sourceDocs))⟩)
      ∧ (load_existing_embeddings (.keyError msg) persistDirOnDisk docsDir [] chunker
        = ⟨persistDirOnDisk,
           .error ("No documents found in " ++ docsDir ++ " to rebuild embeddings.")⟩) := by
  constructor
  · rw [load_existing_embeddings]
    rw [if_neg (by simpa using hne)]
  · rfl

/-- Witness for C5: a concrete corrupted-load scenario with one source
document. -/
theorem c5_selfheal_rebuild_witness :
    (load_existing_embeddings (.keyError "manifest") true "data/" [⟨some "doc", "text"⟩] id
        = ⟨true, .ok (store_embeddings (id [(⟨some "doc", "text"⟩ : RagDoc)]))⟩)
      ∧ (load_existing_embeddings (.keyError "manifest") true "data/" [] id
        = ⟨true, .error ("No documents found in " ++ "data/" ++ " to rebuild embeddings.")⟩) :=
  c5_selfheal_rebuild "manifest" true "data/" [⟨some "doc", "text"⟩] id (by simp)

theorem joinSep_snoc_length (sep : String) (parts : List String) (s : String) :
    (joinSep sep (parts ++ [s])).length
      = (joinSep sep parts).length + (if parts.isEmpty then 0 else sep.length)
        + s.length := by
  induction parts with
  | nil => simp [joinSep]
  | cons a t ih =>
    cases t with
    | nil => simp [joinSep, strLen_append]
    | cons b t2 =>
      have e1 : (joinSep sep ((a :: b :: t2) ++ [s])).length
          = a.length + sep.length + (joinSep sep ((b :: t2) ++ [s])).length := by
        show (a ++ sep ++ joinSep sep ((b :: t2) ++ [s])).length = _
        rw [strLen_append, strLen_append]
      have e2 : (joinSep sep (a :: b :: t2)).length
          = a.length + sep.length + (joinSep sep (b :: t2)).length := by
        show (a ++ sep ++ joinSep sep (b :: t2)).length = _
        rw [strLen_append, strLen_append]
      rw [e1, e2, ih]
      simp only [List.isEmpty_cons, if_neg Bool.false_ne_true]
      omega

theorem ragLoop_join_le (n : Nat) (ds : List RagDoc) :
    ∀ (parts : List String) (cur : Nat),
      cur = (joinSep ragSeparator parts).length → cur ≤ MAX_RAG_CONTEXT_CHARS →
      (joinSep ragSeparator (ragLoop n ds parts cur)).length ≤ MAX_RAG_CONTEXT_CHARS := by
  induction ds with
  | nil =>
    intro parts cur h1 h2
    rw [ragLoop, ← h1]
    exact h2
  | cons d rest ih =>
    intro parts cur h1 h2
    simp only [ragLoop]
    by_cases hb : cur + (docSegment n d).length
        + (if parts.isEmpty then 0 else ragSeparator.length) > MAX_RAG_CONTEXT_CHARS
    · rw [if_pos hb, ← h1]
      exact h2
    · rw [if_neg hb]
      apply ih
      · rw [joinSep_snoc_length, ← h1]
        cases parts <;> simp [List.length_append] <;> omega
      · rw [not_lt] at hb
        cases parts <;> simp [List.length_append] at hb ⊢ <;> omega

/-- Claim C2, amended: For every list of retrieved documents, the assembled
context string has length at most `MAX_RAG_CONTEXT_CHARS` (1000), and the
content contributed by each document is its `page_content` truncated to a
budget of at least 50 characters — so its length is at least
`min 50 page_content.length` (not an unconditional 50: a chunk shorter than
the floor contributes all of itself). -/
theorem c2_context_budget (docs : List RagDoc) :
    (buildRagContext docs).length ≤ MAX_RAG_CONTEXT_CHARS
      ∧ ∀ d ∈ docs, min 50 d.page_content.length
          ≤ (includedContent docs.length d).length := by
  constructor
  · exact ragLoop_join_le docs.length docs [] 0 rfl (by norm_num [MAX_RAG_CONTEXT_CHARS])
  · intro d _
    rw [includedContent, strTake_length]
    have h50 : (50:Int) ≤ perDocBudget docs.length d := le_max_left _ _
    have h50n : 50 ≤ (perDocBudget docs.length d).toNat := by
      have := Int.toNat_le_toNat h50
      simpa using this
    exact min_le_min h50n (le_refl _)

/-- Witness for C2: a concrete retrieval with one 60-character document. -/
theorem c2_context_budget_witness :
    (buildRagContext [⟨some "S",
        "A sixty character page content string for the retrieval test"⟩]).length
      ≤ MAX_RAG_CONTEXT_CHARS
      ∧ min 50 (String.length
          "A sixty character page content string for the retrieval test")
        ≤ (includedContent 1 ⟨some "S",
            "A sixty character page content string for the retrieval test"⟩).length :=
  ⟨(c2_context_budget _).1,
   (c2_context_budget [⟨some "S",
      "A sixty character page content string for the retrieval test"⟩]).2 _
    (List.mem_singleton.2 rfl)⟩

/-- Counterexample for C2: a retrieved chunk whose `page_content` is only two
characters long is included in the context, contributing content of length
2 < 50 — refuting the claim that every included chunk contributes at least
the 50-character floor. -/
theorem c2_context_budget_counterexample :
    buildRagContext [⟨some "S", "ab"⟩] = "Source: S\nContent: ab"
      ∧ (includedContent 1 ⟨some "S", "ab"⟩).length < 50 :=
  ⟨rfl, by decide⟩

theorem lexLe_eq_enumLE :
    catalogueLexLe
      = List.enumLE (fun a b : RiskTableRow => decide (a.score ≤ b.score)) := by
  funext a b
  unfold catalogueLexLe List.enumLE
  rcases lt_trichotomy a.2.score b.2.score with h | h | h
  · simp [le_of_lt h, not_le_of_lt h, h, ne_of_lt h]
  · simp [le_of_eq h, le_of_eq h.symm, h, lt_irrefl]
  · simp [not_le_of_lt h, (ne_of_lt h).symm, not_lt_of_lt h]

theorem pySorted_eq_spec (l : List RiskTableRow) :
    ((l.enum.mergeSort catalogueLexLe).map Prod.snd) = pySortedByScore l := by
  rw [lexLe_eq_enumLE, pySortedByScore]
  exact List.mergeSort_enum

theorem pySorted_pairwise (l : List RiskTableRow) :
    (pySortedByScore l).Pairwise (fun a b => a.score ≤ b.score) := by
  have h := @List.sorted_mergeSort RiskTableRow
    (fun a b : RiskTableRow => decide (a.score ≤ b.score))
    (fun a b c hab hbc => by
      simp only [decide_eq_true_eq] at *
      omega)
    (fun a b => by
      simp only [Bool.or_eq_true, decide_eq_true_eq]
      omega) l
  exact h.imp (fun hab => by simpa using hab)

/-- Claim C6: The retrieval query built by `retrieve_rag_context` names as key
risk areas exactly the 3 lowest-scoring risk-table categories — the first
three of the stable sort by score, which coincide with the spec-side
"ascending score, ties by catalogue order" selection — and appends up to 3
raw answer excerpts, each truncated to at most 100 characters. -/
theorem c6_query_construction (profile : CompanyProfile)
    (answers : List (String × String)) :
    ((pySortedByScore (build_risk_table profile answers).1).take 3
        = specLowestRows (build_risk_table profile answers).1)
      ∧ ((pySortedByScore (build_risk_table profile answers).1).take 3).Pairwise
          (fun a b => a.score ≤ b.score)
      ∧ (∀ s ∈ (pySortedByScore (build_risk_table profile answers).1).take 3,
          ∀ r ∈ (pySortedByScore (build_risk_table profile answers).1).drop 3,
            s.score ≤ r.score)
      ∧ ((pySortedByScore (build_risk_table profile answers).1).take 3).length = 3
      ∧ highRiskCategories (build_risk_table profile answers).1
          = ((pySortedByScore (build_risk_table profile answers).1).take 3).map
            (fun r => r.category ++ " (" ++ r.scoring_focus ++ ")")
      ∧ ("Key risk areas: " ++ String.intercalate ", "
            (highRiskCategories (build_risk_table profile answers).1))
          ∈ queryParts profile answers (build_risk_table profile answers).1
      ∧ (answerExcerptParts answers).length ≤ 3
      ∧ ∀ p ∈ answers.take 3,
          ("Response about " ++ categoryNameFor p.1 ++ ": " ++ strTake p.2 100)
              ∈ queryParts profile answers (build_risk_table profile answers).1
            ∧ (strTake p.2 100).length ≤ 100 := by
  refine ⟨?_, ?_, ?_, ?_, rfl, ?_, ?_, ?_⟩
  · rw [specLowestRows, pySorted_eq_spec]
  · exact (pySorted_pairwise _).sublist (List.take_sublist _ _)
  · have hfull := pySorted_pairwise (build_risk_table profile answers).1
    rw [← List.take_append_drop 3 (pySortedByScore (build_risk_table profile answers).1)]
      at hfull
    intro s hs r hr
    exact (List.pairwise_append.1 hfull).2.2 s hs r hr
  · rw [List.length_take]
    have hlen : (pySortedByScore (build_risk_table profile answers).1).length = 22 := by
      rw [pySortedByScore, List.length_mergeSort]
      show (buildRows answers).length = 22
      rw [buildRows, List.length_map]
      rfl
    rw [hlen]
    rfl
  · simp [queryParts]
  · rw [answerExcerptParts, List.length_map, List.length_take]
    omega
  · intro p hp
    constructor
    · have hmem : ("Response about " ++ categoryNameFor p.1 ++ ": " ++ strTake p.2 100)
          ∈ answerExcerptParts answers :=
        List.mem_map.2 ⟨p, hp, rfl⟩
      exact List.mem_append_right _ hmem
    · rw [strTake_length]
      exact min_le_left _ _

/-- Witness for C6: the statement instantiated at a concrete profile, answers
dict and the table built from them. -/
theorem c6_query_construction_witness :
    ((pySortedByScore (build_risk_table ⟨"Finance", "Large", "Leader", "SSO", "Low",
          ["AI", "quantum"]⟩ [("grc", "weak"), ("app_security", "strong tooling")]).1).take 3
        = specLowestRows (build_risk_table ⟨"Finance", "Large", "Leader", "SSO", "Low",
          ["AI", "quantum"]⟩ [("grc", "weak"), ("app_security", "strong tooling")]).1)
      ∧ ((pySortedByScore (build_risk_table ⟨"Finance", "Large", "Leader", "SSO", "Low",
          ["AI", "quantum"]⟩ [("grc", "weak"), ("app_security", "strong tooling")]).1).take
          3).Pairwise (fun a b => a.score ≤ b.score)
      ∧ (∀ s ∈ (pySortedByScore (build_risk_table ⟨"Finance", "Large", "Leader", "SSO", "Low",
            ["AI", "quantum"]⟩ [("grc", "weak"), ("app_security", "strong tooling")]).1).take 3,
          ∀ r ∈ (pySortedByScore (build_risk_table ⟨"Finance", "Large", "Leader", "SSO", "Low",
            ["AI", "quantum"]⟩ [("grc", "weak"), ("app_security", "strong tooling")]).1).drop 3,
            s.score ≤ r.score)
      ∧ ((pySortedByScore (build_risk_table ⟨"Finance", "Large", "Leader", "SSO", "Low",
          ["AI", "quantum"]⟩ [("grc", "weak"), ("app_security", "strong tooling")]).1).take
          3).length = 3
      ∧ highRiskCategories (build_risk_table ⟨"Finance", "Large", "Leader", "SSO", "Low",
          ["AI", "quantum"]⟩ [("grc", "weak"), ("app_security", "strong tooling")]).1
          = ((pySortedByScore (build_risk_table ⟨"Finance", "Large", "Leader", "SSO", "Low",
            ["AI", "quantum"]⟩ [("grc", "weak"), ("app_security", "strong tooling")]).1).take
            3).map (fun r => r.category ++ " (" ++ r.scoring_focus ++ ")")
      ∧ ("Key risk areas: " ++ String.intercalate ", "
            (highRiskCategories (build_risk_table ⟨"Finance", "Large", "Leader", "SSO", "Low",
              ["AI", "quantum"]⟩ [("grc", "weak"), ("app_security", "strong tooling")]).1))
          ∈ queryParts ⟨"Finance", "Large", "Leader", "SSO", "Low", ["AI", "quantum"]⟩
            [("grc", "weak"), ("app_security", "strong tooling")]
            (build_risk_table ⟨"Finance", "Large", "Leader", "SSO", "Low", ["AI", "quantum"]⟩
              [("grc", "weak"), ("app_security", "strong tooling")]).1
      ∧ (answerExcerptParts [("grc", "weak"), ("app_security", "strong tooling")]).length ≤ 3
      ∧ ∀ p ∈ ([("grc", "weak"), ("app_security", "strong tooling")]
            : List (String × String)).take 3,
          ("Response about " ++ categoryNameFor p.1 ++ ": " ++ strTake p.2 100)
              ∈ queryParts ⟨"Finance", "Large", "Leader", "SSO", "Low", ["AI", "quantum"]⟩
                [("grc", "weak"), ("app_security", "strong tooling")]
                (build_risk_table ⟨"Finance", "Large", "Leader", "SSO", "Low",
                  ["AI", "quantum"]⟩
                  [("grc", "weak"), ("app_security", "strong tooling")]).1
            ∧ (strTake p.2 100).length ≤ 100 :=
  c6_query_construction _ _

/-- Claim C3, amended: The parsing step is a total function: for every raw
model output it returns a triple, and on no JSON match or decode failure it
returns the explanatory fallback with the original text as the summary; when
the matched span does decode, the three fields are read from the object with
their per-field defaults but without type validation (see the
counterexample: a non-list `recommendations` value is passed through). -/
theorem c3_parse_total_with_fallback (output : String) :
    (extractJsonSpan output = none →
        parseLlmOutput output = (noJsonRecs, .jarr [], .jstr output))
      ∧ (∀ js, extractJsonSpan output = some js → jsonLoads js = none →
          parseLlmOutput output = (badJsonRecs, .jarr [], .jstr output))
      ∧ (∀ js fields, extractJsonSpan output = some js →
          jsonLoads js = some (.jobj fields) →
          parseLlmOutput output
            = (objGetD fields "recommendations" missingRecsDefault,
               objGetD fields "resources" (.jarr []),
               objGetD fields "rawLLMOutput" (.jstr output))) := by
  refine ⟨?_, ?_, ?_⟩
  · intro h
    simp only [parseLlmOutput, h]
  · intro js h1 h2
    simp only [parseLlmOutput, h1, h2]
  · intro js fields h1 h2
    simp only [parseLlmOutput, h1, h2]

/-- Witness for C3: an input with no brace pair takes the no-JSON fallback. -/
theorem c3_parse_total_with_fallback_witness :
    parseLlmOutput "no structured output" =
      (noJsonRecs, .jarr [], .jstr "no structured output") :=
  (c3_parse_total_with_fallback "no structured output").1 rfl

/-- Counterexample for C3: on the raw output `{"recommendations": 5}` the
parsing step completes without raising but the recommendations component is
the number 5 — not a list — refuting "produces ... a recommendations list"
for every input. -/
theorem c3_parse_total_counterexample :
    isJArr (parseLlmOutput "\x7b\"recommendations\": 5\x7d").1 = false
      ∧ (parseLlmOutput "\x7b\"recommendations\": 5\x7d").2.1 = .jarr []
      ∧ (parseLlmOutput "\x7b\"recommendations\": 5\x7d").2.2
          = .jstr "\x7b\"recommendations\": 5\x7d" :=
  ⟨rfl, rfl, rfl⟩

/-- Claim C4, amended: Parsing the scenario string yields recommendations
`["A"]` and raw summary `"x"`; the parsed resources list is empty, and the
result returned to the caller therefore carries the two hard-coded default
resources substituted for it (not the empty list). -/
theorem c4_parse_scenario :
    parseLlmOutput
        "Some preamble \x7b\"recommendations\":[\"A\"],\"resources\":[],\"rawLLMOutput\":\"x\"\x7d trailing"
      = (.jarr [.jstr "A"], .jarr [], .jstr "x")
      ∧ generateLlmAdvice
        "Some preamble \x7b\"recommendations\":[\"A\"],\"resources\":[],\"rawLLMOutput\":\"x\"\x7d trailing"
      = .ok (.jarr [.jstr "A"], defaultResources, .jstr "x") :=
  ⟨rfl, rfl⟩

/-- Counterexample for C4: on the scenario string the triple returned to the
caller has the two default resources (NIST CSF, ISO/IEC 27001), not the empty
resources list the claim states. -/
theorem c4_parse_scenario_counterexample :
    generateLlmAdvice
        "Some preamble \x7b\"recommendations\":[\"A\"],\"resources\":[],\"rawLLMOutput\":\"x\"\x7d trailing"
      = .ok (.jarr [.jstr "A"], defaultResources, .jstr "x")
      ∧ defaultResources ≠ .jarr [] :=
  ⟨rfl, by simp [defaultResources]⟩

theorem ensureNonempty_ok_cases (d v w : JVal) (h : ensureNonempty d v = .ok w) :
    w = d ∨ (w = v ∧ pyTruthy v = true) := by
  unfold ensureNonempty at h
  by_cases ht : pyTruthy v
  · rw [if_neg (by simp [ht])] at h
    rcases hl : pyLen v with _ | n
    · simp only [hl] at h
      cases h
    · simp only [hl] at h
      by_cases hn : (n == 0) = true
      · rw [if_pos hn] at h
        exact Or.inl (by cases h; rfl)
      · rw [if_neg hn] at h
        exact Or.inr ⟨by cases h; rfl, ht⟩
  · rw [if_pos (by simpa using ht)] at h
    exact Or.inl (by cases h; rfl)

theorem ensureNonempty_falsy (d v : JVal) (hv : pyTruthy v = false) :
    ensureNonempty d v = .ok d := by
  unfold ensureNonempty
  rw [if_pos (by simp [hv])]

theorem generateLlmAdvice_ok_defaults (output : String) (r rs raw : JVal)
    (h : generateLlmAdvice output = .ok (r, rs, raw)) :
    (∀ l, r = .jarr l → l ≠ [])
      ∧ (∀ l, rs = .jarr l → l ≠ [])
      ∧ (pyTruthy (parseLlmOutput output).1 = false → r = defaultRecommendations)
      ∧ (pyTruthy (parseLlmOutput output).2.1 = false → rs = defaultResources) := by
  rcases hp : parseLlmOutput output with ⟨r0, rs0, raw0⟩
  unfold generateLlmAdvice at h
  rw [hp] at h
  dsimp only at h
  have harr : ∀ (d v w : JVal), ensureNonempty d v = .ok w →
      (∀ l, d = .jarr l → l ≠ []) → ∀ l, w = .jarr l → l ≠ [] := by
    intro d v w hw hd l hl
    rcases ensureNonempty_ok_cases d v w hw with rfl | ⟨rfl, ht⟩
    · exact hd l hl
    · subst hl
      intro hnil
      subst hnil
      simp [pyTruthy] at ht
  rcases e1 : ensureNonempty defaultRecommendations r0 with msg | r1
  · simp only [e1] at h
    cases h
  · simp only [e1] at h
    rcases e2 : ensureNonempty defaultResources rs0 with msg | rs1
    · simp only [e2] at h
      cases h
    · simp only [e2, Except.ok.injEq, Prod.mk.injEq] at h
      obtain ⟨rfl, rfl, rfl⟩ := h
      refine ⟨?_, ?_, ?_, ?_⟩
      · exact harr _ _ _ e1 (by intro l hl; rw [defaultRecommendations] at hl; cases hl; simp)
      · exact harr _ _ _ e2 (by intro l hl; rw [defaultResources] at hl; cases hl; simp)
      · intro hf
        rw [ensureNonempty_falsy _ _ hf] at e1
        cases e1
        rfl
      · intro hf
        rw [ensureNonempty_falsy _ _ hf] at e2
        cases e2
        rfl

/-- Claim C10, amended: on the ready path of `generate_llm_advice_async`,
whenever the function returns an advice triple, any list-valued
recommendations/resources component is non-empty — a falsy parsed component
(empty or missing list, in particular) has been replaced by the hard-coded
defaults, and the invocation-exception triple likewise receives the default
resources.  The unamended claim fails in two ways: the qa-chain-not-ready
early return (api.py lines 410-412) bypasses the substitution and returns a
triple whose resources list is empty, and a truthy non-list field of the
decoded JSON passes through unvalidated (a truthy value with no Python
length even raises a `TypeError`) — see the counterexample. -/
theorem c10_nonempty_defaults (qaChainReady : Bool)
    (invokeResult : Except String String) (r rs raw : JVal)
    (h : generate_llm_advice_full qaChainReady invokeResult = .ok (r, rs, raw)) :
    (qaChainReady = true →
        (∀ l, r = .jarr l → l ≠ [])
          ∧ (∀ l, rs = .jarr l → l ≠ [])
          ∧ ∀ output, invokeResult = .ok output →
              (pyTruthy (parseLlmOutput output).1 = false → r = defaultRecommendations)
            ∧ (pyTruthy (parseLlmOutput output).2.1 = false → rs = defaultResources))
      ∧ (qaChainReady = false → (r, rs, raw) = notReadyTriple ∧ rs = .jarr []) := by
  cases qaChainReady with
  | false =>
    refine ⟨fun hq => Bool.noConfusion hq, fun _ => ?_⟩
    unfold generate_llm_advice_full at h
    rw [if_pos (by simp)] at h
    have h' : notReadyTriple = (r, rs, raw) := by cases h; rfl
    refine ⟨h'.symm, ?_⟩
    have h2 : rs = notReadyTriple.2.1 := by rw [h']
    rw [h2]
    rfl
  | true =>
    refine ⟨fun _ => ?_, fun hq => Bool.noConfusion hq⟩
    unfold generate_llm_advice_full at h
    rw [if_neg (by simp)] at h
    cases invokeResult with
    | error e =>
      dsimp only at h
      have he : applyDefaults (exceptBranchTriple e)
          = .ok (.jarr [.jstr "An error occurred while generating LLM advice."],
                 defaultResources, .jstr ("Error: " ++ e)) := rfl
      rw [he] at h
      obtain ⟨rfl, rfl, rfl⟩ : JVal.jarr [.jstr "An error occurred while generating LLM advice."] = r
          ∧ defaultResources = rs ∧ JVal.jstr ("Error: " ++ e) = raw := by
        refine ⟨?_, ?_, ?_⟩ <;> cases h <;> rfl
      refine ⟨?_, ?_, ?_⟩
      · intro l hl
        cases hl
        simp
      · intro l hl
        rw [defaultResources] at hl
        cases hl
        simp
      · intro output hoo
        cases hoo
    | ok output =>
      dsimp only at h
      have H := generateLlmAdvice_ok_defaults output r rs raw h
      refine ⟨H.1, H.2.1, ?_⟩
      intro output' hoo
      cases hoo
      exact ⟨H.2.2.1, H.2.2.2⟩

/-- Witness for C10: the qa chain is ready and the model returns an output
with no JSON object; the returned recommendations are the (non-empty)
no-JSON fallback list and the empty parsed resources are replaced by the
default resources. -/
theorem c10_nonempty_defaults_witness :
    ((true = true →
        (∀ l, noJsonRecs = JVal.jarr l → l ≠ [])
          ∧ (∀ l, defaultResources = JVal.jarr l → l ≠ [])
          ∧ ∀ output, (Except.ok "plain text" : Except String String) = .ok output →
              (pyTruthy (parseLlmOutput output).1 = false → noJsonRecs = defaultRecommendations)
            ∧ (pyTruthy (parseLlmOutput output).2.1 = false
                → defaultResources = defaultResources))
      ∧ (true = false →
          (noJsonRecs, defaultResources, JVal.jstr "plain text") = notReadyTriple
            ∧ defaultResources = JVal.jarr [])) :=
  c10_nonempty_defaults true (.ok "plain text") noJsonRecs defaultResources
    (.jstr "plain text") rfl

/-- Counterexample for C10: the claim fails in two ways.  On the raw output
`{"recommendations": "abc"}` the function returns normally but the
recommendations component is the string `"abc"` — not a list at all, hence
not a non-empty recommendations list; and when the qa chain is not ready,
the early return of api.py lines 410-412 hands the caller a triple whose
resources component is the empty list, bypassing the default substitution. -/
theorem c10_nonempty_defaults_counterexample :
    (generateLlmAdvice "\x7b\"recommendations\": \"abc\"\x7d"
        = .ok (.jstr "abc", defaultResources, .jstr "\x7b\"recommendations\": \"abc\"\x7d")
      ∧ isJArr (.jstr "abc") = false)
      ∧ generate_llm_advice_full false (.ok "")
        = .ok (.jarr [.jstr "LLM advice generation failed: RAG pipeline not ready."],
               .jarr [], .jstr "QA chain not initialized.") :=
  ⟨⟨rfl, rfl⟩, rfl⟩

theorem pyTrunc_of_nonneg (q : ℚ) (h : 0 ≤ q) : pyTrunc q = ⌊q⌋ := by
  rw [pyTrunc, if_pos h]

/-- Claim C1, amended: Whenever the dynamic budget left after the static
template parts and the (possibly re-truncated) context is non-negative, the
assembled prompt fits the total character target of 3600.  (The unamended
"no exceptions" claim fails: the static header embeds the untruncated
emerging-technologies join, which can exceed the target by itself — see the
counterexample.) -/
theorem c1_prompt_within_budget (emergingTech : List String)
    (profile_info answers_json risk_table_json context : String)
    (hb : 0 ≤ dynamicBudget emergingTech context) :
    (assembledPrompt emergingTech profile_info answers_json risk_table_json context).length
      ≤ TARGET_LLM_PROMPT_TOTAL_CHARS := by
  have hbq : (0:ℚ) ≤ ((dynamicBudget emergingTech context : Int) : ℚ) := by exact_mod_cast hb
  have h20 : (0:ℚ) ≤ ((dynamicBudget emergingTech context : Int) : ℚ) * (20/100) :=
    mul_nonneg hbq (by norm_num)
  have h40 : (0:ℚ) ≤ ((dynamicBudget emergingTech context : Int) : ℚ) * (40/100) :=
    mul_nonneg hbq (by norm_num)
  have hp := pyTrunc_of_nonneg _ h20
  have ha := pyTrunc_of_nonneg _ h40
  have hp0 : 0 ≤ pyTrunc (((dynamicBudget emergingTech context : Int) : ℚ) * (20/100)) := by
    rw [hp]; exact Int.floor_nonneg.mpr h20
  have ha0 : 0 ≤ pyTrunc (((dynamicBudget emergingTech context : Int) : ℚ) * (40/100)) := by
    rw [ha]; exact Int.floor_nonneg.mpr h40
  have hsum : pyTrunc (((dynamicBudget emergingTech context : Int) : ℚ) * (20/100))
      + pyTrunc (((dynamicBudget emergingTech context : Int) : ℚ) * (40/100))
      + pyTrunc (((dynamicBudget emergingTech context : Int) : ℚ) * (40/100))
      ≤ dynamicBudget emergingTech context := by
    rw [hp, ha]
    have f1 : ((⌊((dynamicBudget emergingTech context : Int) : ℚ) * (20/100)⌋ : Int) : ℚ)
        ≤ ((dynamicBudget emergingTech context : Int) : ℚ) * (20/100) := Int.floor_le _
    have f2 : ((⌊((dynamicBudget emergingTech context : Int) : ℚ) * (40/100)⌋ : Int) : ℚ)
        ≤ ((dynamicBudget emergingTech context : Int) : ℚ) * (40/100) := Int.floor_le _
    have hcast : ((⌊((dynamicBudget emergingTech context : Int) : ℚ) * (20/100)⌋
        + ⌊((dynamicBudget emergingTech context : Int) : ℚ) * (40/100)⌋
        + ⌊((dynamicBudget emergingTech context : Int) : ℚ) * (40/100)⌋ : Int) : ℚ)
        ≤ ((dynamicBudget emergingTech context : Int) : ℚ) := by
      push_cast
      linarith
    exact_mod_cast hcast
  have hl1 := pySlice_length_le profile_info _ hp0
  have hl2 := pySlice_length_le answers_json _ ha0
  have hl3 := pySlice_length_le risk_table_json _ ha0
  have hlen : (assembledPrompt emergingTech profile_info answers_json risk_table_json
        context).length
      = lenStaticPrompt emergingTech
        + (pySlice profile_info
            (pyTrunc (((dynamicBudget emergingTech context : Int) : ℚ) * (20/100)))).length
        + (pySlice answers_json
            (pyTrunc (((dynamicBudget emergingTech context : Int) : ℚ) * (40/100)))).length
        + (pySlice risk_table_json
            (pyTrunc (((dynamicBudget emergingTech context : Int) : ℚ) * (40/100)))).length
        + (effectiveContext emergingTech context).length := by
    simp only [assembledPrompt, lenStaticPrompt, strLen_append]
    omega
  have hBeq : dynamicBudget emergingTech context
      = (TARGET_LLM_PROMPT_TOTAL_CHARS : Int) - lenStaticPrompt emergingTech
        - (effectiveContext emergingTech context).length := rfl
  have hfin : ((assembledPrompt emergingTech profile_info answers_json risk_table_json
      context).length : Int) ≤ (TARGET_LLM_PROMPT_TOTAL_CHARS : Int) := by
    rw [hlen]
    push_cast
    omega
  exact_mod_cast hfin

set_option maxRecDepth 40000 in
/-- Witness for C1: a small concrete instance whose dynamic budget is
non-negative. -/
theorem c1_prompt_within_budget_witness :
    (assembledPrompt [] "profile info" "answers json" "risk table json" "ctx").length
      ≤ TARGET_LLM_PROMPT_TOTAL_CHARS :=
  c1_prompt_within_budget [] "profile info" "answers json" "risk table json" "ctx"
    (by decide)

/-- Counterexample for C1: a company profile whose emerging-technologies
entry is 4000 characters long makes the untruncated static header alone
exceed the 3600-character target, so the assembled prompt exceeds the limit
(with empty answers and risk table, whose `json.dumps` serializations are
`"{}"` and `"[]"`, and a 1-character retrieved context). -/
theorem c1_prompt_within_budget_counterexample :
    TARGET_LLM_PROMPT_TOTAL_CHARS
      < (generateLlmPrompt ⟨"", "", "", "", "", [String.mk (List.replicate 4000 'a')]⟩
          "\x7b\x7d" "[]" "c").length := by
  have hbig : (String.mk (List.replicate 4000 'a')).length = 4000 := by
    rw [strMk_length, List.length_replicate]
  have hinter : String.intercalate ", " [String.mk (List.replicate 4000 'a')]
      = String.mk (List.replicate 4000 'a') := rfl
  simp only [generateLlmPrompt, assembledPrompt, staticHeader, hinter, strLen_append, hbig,
    TARGET_LLM_PROMPT_TOTAL_CHARS]
  omega

end RiskAI
